import Mathlib

/-!
Verification development for the Copernicus volcano-monitoring backend
(`copernicus_backend`).  The Python sources are shallowly embedded:

* pure computation (bbox derivation, scene selection, retry control flow,
  path construction, token-cache state transitions) becomes Lean functions;
* network effects become explicit parameters describing the upstream
  outcome (status codes, response payloads, raised exceptions);
* Python floats carrying coordinates, seconds and cloud percentages are
  modelled as `Rat` (the claims are order/structure claims, no rounding);
* Python `datetime` values are modelled as seconds since the Unix epoch
  (`Int`), with an explicit parser for the canonical ISO-8601 UTC strings
  (`YYYY-MM-DDTHH:MM:SS` with optional trailing `Z`) that the backend and
  the upstream catalog exchange;
* fallible code returns `Except`/`Option`.
-/

/- ------------------------------------------------------------------ -/
/- Python-style helpers                                                -/
/- ------------------------------------------------------------------ -/

/-- Python truthiness-based `or` for an optional string: `none` and the
empty string are falsy, so `x or d` yields `d` for both. -/
def strOr (x : Option String) (d : String) : String :=
  match x with
  | none => d
  | some s => if s = "" then d else s

/-- Python `min(l)` on a list of numbers: `none` on the empty list
(where CPython raises `ValueError`). -/
def pyMinL : List Rat → Option Rat
  | [] => none
  | x :: xs => some (xs.foldl min x)

/-- Python `max(l)` on a list of numbers: `none` on the empty list. -/
def pyMaxL : List Rat → Option Rat
  | [] => none
  | x :: xs => some (xs.foldl max x)

/-- Python `max(x :: xs, key=key)`: fold keeping the current best,
replacing it only on a strictly larger key, so the FIRST maximum wins. -/
def pyMax1 {α : Type} (key : α → Int) (x : α) (xs : List α) : α :=
  xs.foldl (fun best y => if key best < key y then y else best) x

/- ------------------------------------------------------------------ -/
/- Calendar arithmetic (model of Python `datetime` in UTC)             -/
/- ------------------------------------------------------------------ -/

/-- Days from 1970-01-01 to the civil date `y-m-d` (proleptic Gregorian),
the standard era-based algorithm; all divisions hit non-negative operands
for the years the backend handles (`y ≥ 0`). -/
def daysFromCivil (y : Int) (m d : Nat) : Int :=
  let yAdj : Int := if m ≤ 2 then y - 1 else y
  let era : Int := (if 0 ≤ yAdj then yAdj else yAdj - 399) / 400
  let yoe : Int := yAdj - era * 400
  let mp : Int := ((m : Int) + 9) % 12
  let doy : Int := (153 * mp + 2) / 5 + (d : Int) - 1
  let doe : Int := yoe * 365 + yoe / 4 - yoe / 100 + doy
  era * 146097 + doe - 719468

/-- Inverse of `daysFromCivil`: the civil date of epoch-day `z`. -/
def civilFromDays (z : Int) : Int × Nat × Nat :=
  let z := z + 719468
  let era : Int := (if 0 ≤ z then z else z - 146096) / 146097
  let doe : Int := z - era * 146097
  let yoe : Int := (doe - doe / 1460 + doe / 36524 - doe / 146096) / 365
  let y : Int := yoe + era * 400
  let doy : Int := doe - (365 * yoe + yoe / 4 - yoe / 100)
  let mp : Int := (5 * doy + 2) / 153
  let d : Int := doy - (153 * mp + 2) / 5 + 1
  let m : Int := if mp < 10 then mp + 3 else mp - 9
  (if m ≤ 2 then y + 1 else y, m.toNat, d.toNat)

/-- Zero-padded two-digit rendering of a number below 100. -/
def pad2 (n : Nat) : String :=
  if n < 10 then "0" ++ toString n else toString n

/-- Zero-padded four-digit year rendering (years the backend handles are
0001..9999, as in Python `datetime`). -/
def pad4 (n : Int) : String :=
  let s := toString n.toNat
  if s.length ≥ 4 then s else String.mk (List.replicate (4 - s.length) '0') ++ s

/-- Model of Python `date.isoformat()` for the calendar date of epoch-day
`z`: `YYYY-MM-DD`. -/
def dateIso (z : Int) : String :=
  let c := civilFromDays z
  pad4 c.1 ++ "-" ++ pad2 c.2.1 ++ "-" ++ pad2 c.2.2

/-- Seconds since the Unix epoch of the civil instant `y-mo-d h:mi:se` UTC. -/
def epochSecs (y : Int) (mo d h mi se : Nat) : Int :=
  daysFromCivil y mo d * 86400 + (h * 3600 + mi * 60 + se : Nat)

/-- Model of `app.main.parse_datetime_utc` (and of `datetime.fromisoformat`
after the source's `replace("Z", "+00:00")`): parses a canonical ISO-8601
UTC string `YYYY-MM-DDTHH:MM:SS` with optional trailing `Z` into epoch
seconds; a naive string is interpreted as UTC exactly as the source's
`dt.replace(tzinfo=timezone.utc)` does.  `none` models the `ValueError`
path (the endpoint turns it into HTTP 422). -/
def parse_datetime_utc (s : String) : Option Int :=
  let cs := s.toList
  let body := if cs.getLast? = some 'Z' then cs.dropLast else cs
  match body with
  | [y1, y2, y3, y4, '-', m1, m2, '-', d1, d2, 'T', h1, h2, ':', i1, i2, ':', s1, s2] =>
    if ([y1, y2, y3, y4, m1, m2, d1, d2, h1, h2, i1, i2, s1, s2].all Char.isDigit) then
      let val : Char → Nat := fun c => c.toNat - 48
      let y : Int := (val y1 * 1000 + val y2 * 100 + val y3 * 10 + val y4 : Nat)
      let mo := val m1 * 10 + val m2
      let d := val d1 * 10 + val d2
      let h := val h1 * 10 + val h2
      let mi := val i1 * 10 + val i2
      let se := val s1 * 10 + val s2
      if 1 ≤ mo ∧ mo ≤ 12 ∧ 1 ≤ d ∧ d ≤ 31 ∧ h ≤ 23 ∧ mi ≤ 59 ∧ se ≤ 59 then
        some (epochSecs y mo d h mi se)
      else none
    else none
  | _ => none

/-- Model of `app.main.to_z` (UTC `datetime.isoformat()` with the offset
rewritten to `Z`) on an epoch-seconds instant. -/
def to_z (t : Int) : String :=
  let day := Int.fdiv t 86400
  let sod := (t - day * 86400).toNat
  dateIso day ++ "T" ++ pad2 (sod / 3600) ++ ":" ++ pad2 (sod % 3600 / 60) ++ ":" ++ pad2 (sod % 60) ++ "Z"

/- ------------------------------------------------------------------ -/
/- `app.models.AOI` and its `ensure_bbox` validator                    -/
/- ------------------------------------------------------------------ -/

/-- GeoJSON-like geometry as the validator reads it: a `type` tag and
`coordinates`, a list of rings, each ring a list of positions, each
position a list of numbers (`c[0]` = longitude, `c[1]` = latitude). -/
structure Geometry where
  type : String
  coordinates : List (List (List Rat))
deriving Repr, DecidableEq

/-- The `AOI` pydantic model before/after validation: `bbox` and
`geometry` are both optional.  A present `geometry` is modelled as truthy
(the validator's `self.geometry` test). -/
structure AOIIn where
  id : String
  name : String
  bbox : Option (List Rat)
  geometry : Option Geometry
deriving Repr, DecidableEq

/-- First half of `AOI.ensure_bbox` (`app/models.py`): when `bbox` is
absent and a geometry is present, require `type == "Polygon"`, take
`coordinates[0]` (the exterior ring), extract `c[0]`/`c[1]` of every
position, and set `bbox = [min lons, min lats, max lons, max lats]`;
otherwise leave the record as is.  `Except.error` carries the exception
message (the `ValueError` text, or the index/empty-sequence errors
CPython would raise on malformed coordinate data). -/
def derive_bbox (a : AOIIn) : Except String AOIIn :=
  match a.bbox, a.geometry with
  | none, some g =>
    if g.type = "Polygon" then
      match g.coordinates with
      | [] => .error "IndexError: list index out of range"
      | coords :: _ =>
        match coords.mapM (fun c => c.get? 0), coords.mapM (fun c => c.get? 1) with
        | some lons, some lats =>
          match pyMinL lons, pyMinL lats, pyMaxL lons, pyMaxL lats with
          | some mnLon, some mnLat, some mxLon, some mxLat =>
            .ok { a with bbox := some [mnLon, mnLat, mxLon, mxLat] }
          | _, _, _, _ => .error "ValueError: min() arg is an empty sequence"
        | _, _ => .error "IndexError: list index out of range"
    else .error "geometry.type must be 'Polygon'"
  | _, _ => .ok a

/-- The validator's closing check: after the optional derivation, a bbox
of exactly 4 entries must exist (`if not self.bbox or len(self.bbox) != 4`;
an empty list is also caught, its length not being 4). -/
def ensure_bbox (a : AOIIn) : Except String AOIIn :=
  match derive_bbox a with
  | .error e => .error e
  | .ok b =>
    match b.bbox with
    | some l =>
      if l.length = 4 then .ok b
      else .error "AOI must have bbox (either directly or computed from geometry)"
    | none => .error "AOI must have bbox (either directly or computed from geometry)"

/- ------------------------------------------------------------------ -/
/- `app.services.token.get_access_token`                               -/
/- ------------------------------------------------------------------ -/

/-- The module-level `_token_cache` dict: an optional token string and an
absolute expiry time in seconds. -/
structure TokenCache where
  access_token : Option String
  expires_at : Rat
deriving Repr, DecidableEq

/-- JSON payload of a successful token-endpoint response: `access_token`
and the optional `expires_in` field. -/
structure TokenResponse where
  access_token : String
  expires_in : Option Rat
deriving Repr, DecidableEq

/-- Outcome of one `get_access_token` call: the returned token (or the
upstream HTTP status raised by `raise_for_status`), the cache state after
the call, and how many token-endpoint requests the call performed. -/
structure TokenCallResult where
  result : Except Nat String
  cache : TokenCache
  requests : Nat
deriving Repr

/-- Model of `get_access_token` (`app/services/token.py`).  `now` is
`time.time()`; `upstream` is what one client-credentials POST would
return (`Except.error s` = non-2xx status `s` raised by
`raise_for_status`, leaving the cache untouched).  The cache hit test is
Python truthiness on the stored token plus the 60-second expiry margin. -/
def get_access_token (cache : TokenCache) (now : Rat)
    (upstream : Except Nat TokenResponse) : TokenCallResult :=
  let refresh : TokenCallResult :=
    match upstream with
    | .error s => ⟨.error s, cache, 1⟩
    | .ok payload =>
      ⟨.ok payload.access_token,
       ⟨some payload.access_token, now + payload.expires_in.getD 3600⟩, 1⟩
  match cache.access_token with
  | some t => if t ≠ "" ∧ cache.expires_at - now > 60 then ⟨.ok t, cache, 0⟩ else refresh
  | none => refresh

/- ------------------------------------------------------------------ -/
/- `app.services.catalog`                                              -/
/- ------------------------------------------------------------------ -/

/-- `properties` of a catalog feature as the backend reads it:
`datetime` and `eo:cloud_cover`, each possibly absent. -/
structure Props where
  datetime : Option String
  cloud_cover : Option Rat
deriving Repr, DecidableEq

/-- A catalog search feature: optional `id` and optional `properties`
object (an absent or null `properties` both read as "no fields" through
the source's `or {}` / default-`{}` accesses). -/
structure Feature where
  id : Option String
  properties : Option Props
deriving Repr, DecidableEq

/-- The `properties` dict the source code reads off a feature
(`feature.get("properties") or {}`). -/
def Feature.props (f : Feature) : Props :=
  f.properties.getD ⟨none, none⟩

/-- The raw datetime string `key_fn` works on:
`(f.get("properties") or {}).get("datetime") or "1970-01-01T00:00:00Z"`. -/
def dtRaw (f : Feature) : String :=
  strOr f.props.datetime "1970-01-01T00:00:00Z"

/-- `key_fn` of `find_latest_s2_scene`: parse the (defaulted) datetime
string.  `none` models `_parse_dt` raising on an unparseable string. -/
def key_fn (f : Feature) : Option Int :=
  parse_datetime_utc (dtRaw f)

/-- `key_fn` as the total `Int` key used once every feature in the list
is known to parse. -/
def keyD (f : Feature) : Int :=
  (key_fn f).getD 0

/-- Whether `max(features, key=key_fn)` evaluates every key without
raising. -/
def keysParse (features : List Feature) : Bool :=
  features.all fun f => (key_fn f).isSome

/-- Pure core of `find_latest_s2_scene` (`app/services/catalog.py`):
given the `features` field of the upstream search response
(`data.get("features") or []`), return `.ok none` when it is empty and
otherwise `max(features, key=key_fn)`; `.error` models the exception
`_parse_dt` raises inside `max` on an unparseable datetime string. -/
def find_latest_s2_scene (featuresField : Option (List Feature)) :
    Except String (Option Feature) :=
  let features := featuresField.getD []
  match features with
  | [] => .ok none
  | x :: xs =>
    if keysParse (x :: xs) then .ok (some (pyMax1 keyD x xs))
    else .error "Invalid isoformat string"

/-- The transient statuses `_post_with_retry` retries on. -/
def isTransient (s : Nat) : Bool :=
  s == 502 || s == 503 || s == 504

/-- httpx `Response.raise_for_status`: a 2xx response is returned, any
other status is raised (modelled as `.error status`). -/
def raise_for_status (s : Nat) : Except Nat Nat :=
  if 200 ≤ s ∧ s < 300 then .ok s else .error s

/-- Decidable equality for `Except`, needed to evaluate witnesses. -/
instance {ε α : Type} [DecidableEq ε] [DecidableEq α] : DecidableEq (Except ε α) := fun x y =>
  match x, y with
  | .ok a, .ok b =>
    if h : a = b then .isTrue (by rw [h]) else .isFalse (by simp [h])
  | .error a, .error b =>
    if h : a = b then .isTrue (by rw [h]) else .isFalse (by simp [h])
  | .ok _, .error _ => .isFalse (by simp)
  | .error _, .ok _ => .isFalse (by simp)

/-- Trace of one `_post_with_retry` call: how many POST attempts were
made, the `asyncio.sleep` durations in order, and the final outcome
(`.ok status` returned, or `.error status` raised). -/
structure RetryTrace where
  attempts : Nat
  sleeps : List Rat
  outcome : Except Nat Nat
deriving Repr, DecidableEq

/-- The loop body of `_post_with_retry` from attempt index `i` on, where
`fuel = tries - 1 - i` counts the retries still allowed (`i < tries - 1`
iff `fuel > 0`).  On a transient status with retries left it sleeps
`1.5 * (i + 1)` seconds and continues; otherwise it calls
`raise_for_status` and stops.  `status i` is the HTTP status of the
`(i+1)`-th POST attempt. -/
def retryGo (status : Nat → Nat) (i : Nat) : Nat → RetryTrace
  | 0 => ⟨1, [], raise_for_status (status i)⟩
  | fuel + 1 =>
    if isTransient (status i) then
      let t := retryGo status (i + 1) fuel
      ⟨t.attempts + 1, (3 / 2 : Rat) * ((i : Rat) + 1) :: t.sleeps, t.outcome⟩
    else ⟨1, [], raise_for_status (status i)⟩

/-- Model of `_post_with_retry` (`app/services/catalog.py`), defined for
the call-site invariant `tries ≥ 1` (the source always passes 4; the
line after the `for` loop is unreachable because the last iteration
never `continue`s). -/
def post_with_retry (status : Nat → Nat) (tries : Nat) : RetryTrace :=
  retryGo status 0 (tries - 1)

/- ------------------------------------------------------------------ -/
/- `app.services.storage.save_png`                                     -/
/- ------------------------------------------------------------------ -/

/-- The local filesystem as a map from paths to file contents (PNG bytes
modelled as a list of byte values). -/
def FS : Type := String → Option (List Nat)

/-- Model of `save_png` (`app/services/storage.py`): write the bytes to
`{output_dir}/{aoi_id}/{date_str}_false_color.png` (POSIX `Path`
joining; the backslash replacement is the identity there), overwriting
any existing file, and return the relative path. -/
def save_png (outputDir aoi_id date_str : String) (png : List Nat) (fs : FS) :
    FS × String :=
  let out_path := outputDir ++ "/" ++ aoi_id ++ "/" ++ date_str ++ "_false_color.png"
  (fun p => if p = out_path then some png else fs p, out_path)

/- ------------------------------------------------------------------ -/
/- HTTP surface (`app.main`)                                           -/
/- ------------------------------------------------------------------ -/

/-- A validated AOI as the endpoints use it (`a.id`, `a.name`, resolved
`a.bbox`). -/
structure AOIRec where
  id : String
  name : String
  bbox : List Rat
deriving Repr, DecidableEq

/-- Outcome of the network part of one `find_latest_s2_scene` call for
one AOI: the parsed `features` field of a successful search response, an
`httpx.HTTPStatusError` with its status and body text, or any other
exception with its message. -/
inductive FindOutcome
  | ok (featuresField : Option (List Feature))
  | httpError (status : Nat) (body : String)
  | exc (msg : String)
deriving Repr, DecidableEq

/-- Outcome of one `fetch_false_color_png` call: PNG bytes, an
`httpx.HTTPStatusError`, or any other exception. -/
inductive PngOutcome
  | ok (png : List Nat)
  | httpError (status : Nat) (body : String)
  | exc (msg : String)
deriving Repr, DecidableEq

/-- Per-item error record of the batch endpoints: the
`{"where": ..., "status": ..., "body": ...}` dict built from an
`HTTPStatusError` (the `where` tag is present only in `/latest-scenes`),
or the `{"message": str(e)}` dict of the catch-all handler. -/
inductive ErrRecord
  | http (whereTag : Option String) (status : Nat) (body : String)
  | msg (m : String)
deriving Repr, DecidableEq

/-- The `scene` object of a successful `/latest-scenes` item. -/
structure SceneInfo where
  datetime : Option String
  cloud_cover : Option Rat
  scene_id : Option String
deriving Repr, DecidableEq

/-- One entry of the `/latest-scenes` results list. -/
inductive ScenesEntry
  | ok (aoi_id name : String) (scene : Option SceneInfo)
  | err (aoi_id name : String) (e : ErrRecord)
deriving Repr, DecidableEq

/-- One entry of the `/latest-fc-all` results list. -/
inductive FcAllEntry
  | ok (aoi_id name : String) (datetime file url : Option String)
  | err (aoi_id name : String) (e : ErrRecord)
deriving Repr, DecidableEq

/-- Truthiness-filtered datetime string of a selected feature, as both
fc endpoints compute it (`.get("datetime")` then `if not dt_str`):
`none` for an absent or empty datetime. -/
def dtStrOpt (f : Feature) : Option String :=
  match f.props.datetime with
  | none => none
  | some s => if s = "" then none else some s

/-- The `str(HTTPException)` message produced when `parse_datetime_utc`
rejects a scene's datetime inside a batch task (caught by the task's
catch-all `except Exception`). -/
def invalidDtMsg : String :=
  "422: Invalid datetime_utc. Use ISO format e.g. 2026-01-23T10:15:00Z"

/-- The task body `one(a)` of `/latest-scenes` (`app/main.py`): every
failure is converted into an error entry, success carries the selected
scene's fields (`properties` read with a `{}` default). -/
def latest_scenes_one (a : AOIRec) (r : FindOutcome) : ScenesEntry :=
  match r with
  | .httpError s b => .err a.id a.name (.http (some "catalog.search") s (b.take 400))
  | .exc m => .err a.id a.name (.msg m)
  | .ok ff =>
    match find_latest_s2_scene ff with
    | .error m => .err a.id a.name (.msg m)
    | .ok none => .ok a.id a.name none
    | .ok (some f) => .ok a.id a.name (some ⟨f.props.datetime, f.props.cloud_cover, f.id⟩)

/-- The task body `one(a)` of `/latest-fc-all` (`app/main.py`): find the
latest scene, reject a missing/empty datetime with the
`"scene missing datetime"` error record, parse the datetime, render,
save, and build the `{datetime, file, url}` entry; every raised
exception becomes an error entry.  (The filesystem write is the
`save_png` path; the bytes written are not part of the batch entry.) -/
def latest_fc_all_one (outputDir : String) (a : AOIRec)
    (find : FindOutcome) (png : PngOutcome) : FcAllEntry :=
  match find with
  | .httpError s b => .err a.id a.name (.http none s (b.take 400))
  | .exc m => .err a.id a.name (.msg m)
  | .ok ff =>
    match find_latest_s2_scene ff with
    | .error m => .err a.id a.name (.msg m)
    | .ok none => .ok a.id a.name none none none
    | .ok (some f) =>
      match dtStrOpt f with
      | none => .err a.id a.name (.msg "scene missing datetime")
      | some dt_str =>
        match parse_datetime_utc dt_str with
        | none => .err a.id a.name (.msg invalidDtMsg)
        | some t =>
          match png with
          | .httpError s b => .err a.id a.name (.http none s (b.take 400))
          | .exc m => .err a.id a.name (.msg m)
          | .ok bytes =>
            let path := (save_png outputDir a.id (dateIso (Int.fdiv t 86400)) bytes (fun _ => none)).2
            .ok a.id a.name (some dt_str) (some path) (some ("/" ++ path))

/-- `asyncio.gather(*(one(a) for a in aois))`: gather evaluates the
tasks' results into a list in the order the coroutines were passed,
independent of completion order; task `i` of the generator works on AOI
number `i`.  The semaphore bounds how many run at once but does not
change the result list. -/
def gatherMap {α β : Type} (f : Nat → α → β) : Nat → List α → List β
  | _, [] => []
  | i, x :: xs => f i x :: gatherMap f (i + 1) xs

/-- `/latest-scenes` endpoint body: `world i` is the network outcome of
task `i`'s catalog search.  Returns `(count, results)`. -/
def latest_scenes_batch (aois : List AOIRec) (world : Nat → FindOutcome) :
    Nat × List ScenesEntry :=
  let results := gatherMap (fun i a => latest_scenes_one a (world i)) 0 aois
  (results.length, results)

/-- `/latest-fc-all` endpoint body: `worldF i`/`worldP i` are the
network outcomes of task `i`'s catalog search and render call. -/
def latest_fc_all_batch (outputDir : String) (aois : List AOIRec)
    (worldF : Nat → FindOutcome) (worldP : Nat → PngOutcome) :
    Nat × List FcAllEntry :=
  let results := gatherMap (fun i a => latest_fc_all_one outputDir a (worldF i) (worldP i)) 0 aois
  (results.length, results)

/-- Response of the single-AOI `/aois/{id}/latest-scene` endpoint:
the `{aoi_id, scene: null}` no-scene success, the scene success, or a
raised `HTTPException` (404 unknown AOI, upstream status from
`HTTPStatusError`, 502 from the catch-all; detail payload elided). -/
inductive SingleSceneResp
  | noScene (aoi_id : String)
  | scene (aoi_id : String) (datetime : Option String) (cloud_cover : Option Rat)
      (scene_id : Option String)
  | httpExc (status : Nat)
deriving Repr, DecidableEq

/-- Model of the `latest_scene` handler (`app/main.py`). -/
def latest_scene_endpoint (aoi_id : String) (aoi : Option AOIRec)
    (r : FindOutcome) : SingleSceneResp :=
  match aoi with
  | none => .httpExc 404
  | some _ =>
    match r with
    | .httpError s _ => .httpExc s
    | .exc _ => .httpExc 502
    | .ok ff =>
      match find_latest_s2_scene ff with
      | .error _ => .httpExc 502
      | .ok none => .noScene aoi_id
      | .ok (some f) => .scene aoi_id f.props.datetime f.props.cloud_cover f.id

/-- Response of the single-AOI `/aois/{id}/latest-fc` endpoint: the
success shape `{aoi_id, datetime, file, url}` (all-null for no scene or
a missing datetime), a raised `HTTPException`, or an exception escaping
the handler (its `try` only catches `HTTPStatusError`, so any other
exception from the search propagates unhandled). -/
inductive LatestFcResp
  | ok (aoi_id : String) (datetime file url : Option String)
  | httpExc (status : Nat)
  | unhandled (msg : String)
deriving Repr, DecidableEq

/-- Model of the `latest_fc` handler (`app/main.py`): find the latest
scene, return the all-null success when there is no scene or the scene's
datetime is missing/empty, else parse it, render, save and answer with
the file path and `/`-prefixed URL. -/
def latest_fc_endpoint (outputDir : String) (aoi_id : String)
    (aoi : Option AOIRec) (find : FindOutcome) (png : PngOutcome) : LatestFcResp :=
  match aoi with
  | none => .httpExc 404
  | some _ =>
    match find with
    | .httpError s _ => .httpExc s
    | .exc m => .unhandled m
    | .ok ff =>
      match find_latest_s2_scene ff with
      | .error m => .unhandled m
      | .ok none => .ok aoi_id none none none
      | .ok (some f) =>
        match dtStrOpt f with
        | none => .ok aoi_id none none none
        | some dt_str =>
          match parse_datetime_utc dt_str with
          | none => .httpExc 422
          | some t =>
            match png with
            | .httpError s _ => .httpExc s
            | .exc m => .unhandled m
            | .ok bytes =>
              let path := (save_png outputDir aoi_id (dateIso (Int.fdiv t 86400)) bytes (fun _ => none)).2
              .ok aoi_id (some dt_str) (some path) (some ("/" ++ path))

/-- Non-404 error outcome of the `/aois/{id}/fc` handler: a raised
`HTTPException` (422 on a bad `datetime_utc`) or an exception escaping
the handler (it wraps `fetch_false_color_png` in no `try`, so a render
failure propagates unhandled). -/
inductive FcSaveErr
  | httpExc (status : Nat)
  | unhandled
deriving Repr, DecidableEq

/-- Successful response of `/aois/{id}/fc`. -/
structure FcSaveResp where
  aoi_id : String
  datetime : String
  file : String
  url : String
deriving Repr, DecidableEq

/-- Model of the `fc_save` handler (`app/main.py`): parse
`datetime_utc`, render (no exception handling around the render call),
save the PNG under the instant's UTC calendar date and answer with the
path and `/`-prefixed URL; also returns the filesystem after the write. -/
def fc_save (outputDir : String) (aoi_id : String) (aoi : Option AOIRec)
    (datetime_utc : String) (render : PngOutcome) (fs : FS) :
    Except FcSaveErr (FcSaveResp × FS) :=
  match aoi with
  | none => .error (.httpExc 404)
  | some _ =>
    match parse_datetime_utc datetime_utc with
    | none => .error (.httpExc 422)
    | some t =>
      match render with
      | .httpError _ _ => .error .unhandled
      | .exc _ => .error .unhandled
      | .ok png =>
        let saved := save_png outputDir aoi_id (dateIso (Int.fdiv t 86400)) png fs
        .ok (⟨aoi_id, to_z t, saved.2, "/" ++ saved.2⟩, saved.1)

/-- Whether the catalog-search stage of one batch task fails: a raised
`HTTPStatusError`, any other exception from the request, or the
exception `_parse_dt` raises while selecting the latest feature. -/
def FindOutcome.fails (r : FindOutcome) : Bool :=
  match r with
  | .httpError _ _ => true
  | .exc _ => true
  | .ok ff =>
    match find_latest_s2_scene ff with
    | .error _ => true
    | .ok _ => false

/-- Whether a `/latest-fc-all` task fails: the search fails, or a scene
was found whose datetime is missing/empty or unparseable, or the render
call fails.  (A successful search with no scene is NOT a failure.) -/
def fcFails (find : FindOutcome) (png : PngOutcome) : Bool :=
  match find with
  | .httpError _ _ => true
  | .exc _ => true
  | .ok ff =>
    match find_latest_s2_scene ff with
    | .error _ => true
    | .ok none => false
    | .ok (some f) =>
      match dtStrOpt f with
      | none => true
      | some s =>
        match parse_datetime_utc s with
        | none => true
        | some _ =>
          match png with
          | .ok _ => false
          | _ => true

/-- Whether a `/latest-scenes` entry is an error record. -/
def ScenesEntry.isErr : ScenesEntry → Bool
  | .err _ _ _ => true
  | .ok _ _ _ => false

/-- The `aoi_id` field of a `/latest-scenes` entry. -/
def ScenesEntry.aoiId : ScenesEntry → String
  | .err i _ _ => i
  | .ok i _ _ => i

/-- Whether a `/latest-fc-all` entry is an error record. -/
def FcAllEntry.isErr : FcAllEntry → Bool
  | .err _ _ _ => true
  | .ok _ _ _ _ _ => false

/-- The `aoi_id` field of a `/latest-fc-all` entry. -/
def FcAllEntry.aoiId : FcAllEntry → String
  | .err i _ _ => i
  | .ok i _ _ _ _ => i

/- ------------------------------------------------------------------ -/
/- Helper lemmas                                                       -/
/- ------------------------------------------------------------------ -/

/-- A left fold of `min` never exceeds its initial value. -/
lemma foldl_min_le_init (x : Rat) (xs : List Rat) : xs.foldl min x ≤ x := by
  induction xs generalizing x with
  | nil => simp
  | cons y ys ih => exact le_trans (ih (min x y)) (min_le_left x y)

/-- A left fold of `max` is at least its initial value. -/
lemma init_le_foldl_max (x : Rat) (xs : List Rat) : x ≤ xs.foldl max x := by
  induction xs generalizing x with
  | nil => simp
  | cons y ys ih => exact le_trans (le_max_left x y) (ih (max x y))

/-- `min` of a list is at most its `max` (both defined on the same
non-empty list). -/
lemma pyMin_le_pyMax {l : List Rat} {m M : Rat}
    (hm : pyMinL l = some m) (hM : pyMaxL l = some M) : m ≤ M := by
  cases l with
  | nil => simp [pyMinL] at hm
  | cons x xs =>
    simp only [pyMinL, pyMaxL, Option.some.injEq] at hm hM
    calc m = xs.foldl min x := hm.symm
      _ ≤ x := foldl_min_le_init x xs
      _ ≤ xs.foldl max x := init_le_foldl_max x xs
      _ = M := hM

/-- A list of length 4 is a literal 4-element list. -/
lemma list_len4 {α : Type} {l : List α} (h : l.length = 4) :
    ∃ a b c d, l = [a, b, c, d] := by
  match l, h with
  | [a, b, c, d], _ => exact ⟨a, b, c, d, rfl⟩

/-- Unfolding `pyMax1` one step: Python's `max` compares the head against
the running best and keeps the best on ties. -/
lemma pyMax1_cons {α : Type} (key : α → Int) (x y : α) (ys : List α) :
    pyMax1 key x (y :: ys) = pyMax1 key (if key x < key y then y else x) ys := rfl

/-- Python's `max(x :: xs, key=key)` returns a maximum of the list, and
the FIRST element attaining the maximal key: every element strictly
before it in the list has a strictly smaller key. -/
lemma pyMax1_first_max {α : Type} (key : α → Int) (x : α) (xs : List α) :
    ∃ l1 l2, x :: xs = l1 ++ pyMax1 key x xs :: l2 ∧
      (∀ g ∈ x :: xs, key g ≤ key (pyMax1 key x xs)) ∧
      (∀ g ∈ l1, key g < key (pyMax1 key x xs)) := by
  induction xs generalizing x with
  | nil =>
    refine ⟨[], [], rfl, ?_, ?_⟩ <;> simp [pyMax1]
  | cons y ys ih =>
    rw [pyMax1_cons]
    by_cases hxy : key x < key y
    · simp only [if_pos hxy]
      obtain ⟨l1, l2, heq, hmax, hstrict⟩ := ih y
      have hyr : key y ≤ key (pyMax1 key y ys) := hmax y (List.mem_cons_self y ys)
      refine ⟨x :: l1, l2, ?_, ?_, ?_⟩
      · simpa using congrArg (List.cons x) heq
      · intro g hg
        rcases List.mem_cons.mp hg with h | h
        · exact h ▸ le_of_lt (lt_of_lt_of_le hxy hyr)
        · exact hmax g (heq ▸ h)
      · intro g hg
        rcases List.mem_cons.mp hg with h | h
        · exact h ▸ lt_of_lt_of_le hxy hyr
        · exact hstrict g h
    · simp only [if_neg hxy]
      obtain ⟨l1, l2, heq, hmax, hstrict⟩ := ih x
      have hyx : key y ≤ key x := le_of_not_lt hxy
      cases l1 with
      | nil =>
        simp only [List.nil_append] at heq
        have hrx : pyMax1 key x ys = x := by
          have := heq
          injection this with h1 h2
          exact h1.symm
        refine ⟨[], y :: ys, ?_, ?_, ?_⟩
        · simp [hrx]
        · intro g hg
          rcases List.mem_cons.mp hg with h | h
          · exact h ▸ hmax x (List.mem_cons_self x ys)
          · rcases List.mem_cons.mp h with h' | h'
            · exact h' ▸ le_trans hyx (hmax x (List.mem_cons_self x ys))
            · exact hmax g (List.mem_cons_of_mem x h')
        · intro g hg
          simp at hg
      | cons a l1' =>
        simp only [List.cons_append] at heq
        injection heq with hax htl
        have hxlt : key x < key (pyMax1 key x ys) := by
          have := hstrict a (List.mem_cons_self a l1')
          rwa [← hax] at this
        refine ⟨x :: y :: l1', l2, ?_, ?_, ?_⟩
        · conv_lhs => rw [htl]
          simp
        · intro g hg
          rcases List.mem_cons.mp hg with h | h
          · exact h ▸ hmax x (List.mem_cons_self x ys)
          · rcases List.mem_cons.mp h with h' | h'
            · exact h' ▸ le_trans hyx (le_of_lt hxlt)
            · exact hmax g (List.mem_cons_of_mem x (htl ▸ h'))
        · intro g hg
          rcases List.mem_cons.mp hg with h | h
          · exact h ▸ hxlt
          · rcases List.mem_cons.mp h with h' | h'
            · exact h' ▸ lt_of_le_of_lt hyx hxlt
            · exact hstrict g (hax ▸ List.mem_cons_of_mem a h')

/-- A bbox derived from a geometry is a 4-element, per-axis ordered list:
each axis pairs the `min` and the `max` of the same coordinate list. -/
lemma derive_bbox_geom {aid aname : String} {g : Geometry} {b : AOIIn}
    (h : derive_bbox ⟨aid, aname, none, some g⟩ = .ok b) :
    ∃ x0 x1 x2 x3, b.bbox = some [x0, x1, x2, x3] ∧ x0 ≤ x2 ∧ x1 ≤ x3 := by
  obtain ⟨gtype, gcoords⟩ := g
  simp only [derive_bbox] at h
  split_ifs at h with htype
  · cases gcoords with
    | nil => exact Except.noConfusion h
    | cons coords rest =>
      dsimp only at h
      cases hlons : coords.mapM (fun c => c.get? 0) with
      | none => rw [hlons] at h; exact Except.noConfusion h
      | some lons =>
        rw [hlons] at h
        cases hlats : coords.mapM (fun c => c.get? 1) with
        | none => rw [hlats] at h; exact Except.noConfusion h
        | some lats =>
          rw [hlats] at h
          dsimp only at h
          cases hm1 : pyMinL lons with
          | none => rw [hm1] at h; exact Except.noConfusion h
          | some mnLon =>
            rw [hm1] at h
            cases hm2 : pyMinL lats with
            | none => rw [hm2] at h; exact Except.noConfusion h
            | some mnLat =>
              rw [hm2] at h
              cases hm3 : pyMaxL lons with
              | none => rw [hm3] at h; exact Except.noConfusion h
              | some mxLon =>
                rw [hm3] at h
                cases hm4 : pyMaxL lats with
                | none => rw [hm4] at h; exact Except.noConfusion h
                | some mxLat =>
                  rw [hm4] at h
                  dsimp only at h
                  injection h with h'
                  subst h'
                  exact ⟨mnLon, mnLat, mxLon, mxLat, rfl,
                    pyMin_le_pyMax hm1 hm3, pyMin_le_pyMax hm2 hm4⟩

/-- A transient status is not 2xx, so `raise_for_status` raises it. -/
lemma raise_transient {s : Nat} (h : isTransient s = true) :
    raise_for_status s = .error s := by
  simp only [isTransient, Bool.or_eq_true, beq_iff_eq] at h
  rcases h with (h | h) | h <;> subst h <;> rfl

/-- `gatherMap` yields one output per input. -/
lemma gatherMap_length {α β : Type} (f : Nat → α → β) (i : Nat) (l : List α) :
    (gatherMap f i l).length = l.length := by
  induction l generalizing i with
  | nil => rfl
  | cons x xs ih => simp [gatherMap, ih]

/-- Entry `j` of `gatherMap f i l` is `f (i + j)` of input `j`:
results sit at the position of the input they came from. -/
lemma gatherMap_get? {α β : Type} (f : Nat → α → β) (i j : Nat) (l : List α) :
    (gatherMap f i l)[j]? = (l[j]?).map (f (i + j)) := by
  induction l generalizing i j with
  | nil => simp [gatherMap]
  | cons x xs ih =>
    cases j with
    | zero => simp [gatherMap]
    | succ j' =>
      have harith : i + 1 + j' = i + (j' + 1) := by omega
      simp only [gatherMap, List.getElem?_cons_succ, ih (i + 1) j', harith]

/- ------------------------------------------------------------------ -/
/- Claim theorems                                                      -/
/- ------------------------------------------------------------------ -/

/-- C4: the catalog-search POST retries exactly on 502/503/504 up to 4
total attempts, sleeping `1.5 * attempt_number` seconds between attempts
(1.5, 3.0, 4.5); any other non-2xx fails immediately without retry, a
2xx returns immediately without retry, and after the 4th attempt a
still-transient status is raised as a terminal failure. -/
theorem catalog_retry_policy (status : Nat → Nat) :
    ((200 ≤ status 0 ∧ status 0 < 300) →
       post_with_retry status 4 = ⟨1, [], .ok (status 0)⟩)
  ∧ (¬(200 ≤ status 0 ∧ status 0 < 300) → isTransient (status 0) = false →
       post_with_retry status 4 = ⟨1, [], .error (status 0)⟩)
  ∧ (isTransient (status 0) = true → isTransient (status 1) = false →
       post_with_retry status 4 = ⟨2, [3/2], raise_for_status (status 1)⟩)
  ∧ (isTransient (status 0) = true → isTransient (status 1) = true →
     isTransient (status 2) = false →
       post_with_retry status 4 = ⟨3, [3/2, 3], raise_for_status (status 2)⟩)
  ∧ (isTransient (status 0) = true → isTransient (status 1) = true →
     isTransient (status 2) = true →
       post_with_retry status 4 = ⟨4, [3/2, 3, 9/2], raise_for_status (status 3)⟩
       ∧ (isTransient (status 3) = true →
            (post_with_retry status 4).outcome = .error (status 3))) := by
  refine ⟨?_, ?_, ?_, ?_, ?_⟩
  · intro h
    have ht : isTransient (status 0) = false := by
      simp only [isTransient, Bool.or_eq_false_iff, beq_eq_false_iff_ne, ne_eq]
      omega
    simp [post_with_retry, retryGo, ht, raise_for_status, h]
  · intro h ht
    simp [post_with_retry, retryGo, ht, raise_for_status, h]
  · intro h0 h1
    simp [post_with_retry, retryGo, h0, h1]
    all_goals norm_num
  · intro h0 h1 h2
    simp [post_with_retry, retryGo, h0, h1, h2]
    all_goals norm_num
  · intro h0 h1 h2
    constructor
    · simp [post_with_retry, retryGo, h0, h1, h2]
      all_goals norm_num
    · intro h3
      simp [post_with_retry, retryGo, h0, h1, h2, raise_transient h3]

/-- C4 witness: statuses 503, 502, 504, 200 give 4 attempts, sleeps
1.5 s, 3 s, 4.5 s, final success. -/
theorem catalog_retry_policy_witness :
    post_with_retry (fun i => [503, 502, 504, 200].getD i 0) 4 =
      ⟨4, [3/2, 3, 9/2], .ok 200⟩ := by
  have h := (catalog_retry_policy (fun i => [503, 502, 504, 200].getD i 0)).2.2.2.2
      (by decide) (by decide) (by decide)
  rw [h.1]
  rfl

/-- C5 counterexample: an AOI carrying an explicit bbox TOGETHER with a
non-`Polygon` geometry passes validation — the geometry-type check only
runs when the bbox is absent, so a non-Polygon geometry IS accepted. -/
theorem aoi_nonpolygon_accepted_counterexample :
    ensure_bbox ⟨"a1", "n1", some [0, 0, 1, 1], some ⟨"Point", [[[0, 0]]]⟩⟩ =
      .ok ⟨"a1", "n1", some [0, 0, 1, 1], some ⟨"Point", [[[0, 0]]]⟩⟩
  ∧ (Geometry.mk "Point" [[[0, 0]]]).type ≠ "Polygon" := by
  exact ⟨rfl, by decide⟩

/-- C5 amended: when NO bbox is supplied, a present geometry with type
other than `Polygon` fails validation; when a bbox is supplied the
geometry type is not checked at all; and an AOI with neither bbox nor
geometry fails validation. -/
theorem aoi_validation_amended (a : AOIIn) :
    (∀ g, a.bbox = none → a.geometry = some g → g.type ≠ "Polygon" →
       ensure_bbox a = .error "geometry.type must be 'Polygon'")
  ∧ (a.bbox = none → a.geometry = none →
       ensure_bbox a =
         .error "AOI must have bbox (either directly or computed from geometry)") := by
  constructor
  · intro g hb hg ht
    obtain ⟨aid, aname, abbox, ageom⟩ := a
    simp only at hb hg
    subst hb
    subst hg
    simp [ensure_bbox, derive_bbox, ht]
  · intro hb hg
    obtain ⟨aid, aname, abbox, ageom⟩ := a
    simp only at hb hg
    subst hb
    subst hg
    simp [ensure_bbox, derive_bbox]

/-- C5 witness: a bbox-less AOI with a `Point` geometry is rejected with
the geometry-type error, and one with neither field is rejected with the
missing-bbox error. -/
theorem aoi_validation_amended_witness :
    ensure_bbox ⟨"x", "y", none, some ⟨"Point", [[[0, 0]]]⟩⟩ =
      .error "geometry.type must be 'Polygon'"
  ∧ ensure_bbox ⟨"x", "y", none, none⟩ =
      .error "AOI must have bbox (either directly or computed from geometry)" :=
  ⟨(aoi_validation_amended ⟨"x", "y", none, some ⟨"Point", [[[0, 0]]]⟩⟩).1
      ⟨"Point", [[[0, 0]]]⟩ rfl rfl (by decide),
   (aoi_validation_amended ⟨"x", "y", none, none⟩).2 rfl rfl⟩

/-- C6 counterexample: a directly supplied bbox is NOT checked for
`min ≤ max` per axis — `[5, 0, 1, 0]` (with `bbox[0] > bbox[2]`) is
accepted unchanged, so the claimed invariant fails for supplied bboxes. -/
theorem bbox_order_counterexample :
    ensure_bbox ⟨"a2", "n2", some [5, 0, 1, 0], none⟩ =
      .ok ⟨"a2", "n2", some [5, 0, 1, 0], none⟩
  ∧ ¬((5 : Rat) ≤ 1) := by
  exact ⟨rfl, by norm_num⟩

/-- C6 amended: every successfully constructed AOI has a resolved bbox of
exactly 4 numbers; the `min ≤ max` per-axis property additionally holds
whenever the bbox was derived from geometry (no bbox supplied), but a
directly supplied bbox is accepted without any axis-order check. -/
theorem bbox_resolved_amended (a b : AOIIn) (h : ensure_bbox a = .ok b) :
    ∃ x0 x1 x2 x3, b.bbox = some [x0, x1, x2, x3] ∧
      (a.bbox = none → x0 ≤ x2 ∧ x1 ≤ x3) := by
  obtain ⟨aid, aname, abbox, ageom⟩ := a
  cases abbox with
  | some l =>
    have hd : derive_bbox ⟨aid, aname, some l, ageom⟩ = .ok ⟨aid, aname, some l, ageom⟩ := by
      cases ageom <;> rfl
    simp only [ensure_bbox, hd] at h
    split_ifs at h with hlen
    injection h with h'
    subst h'
    obtain ⟨x0, x1, x2, x3, rfl⟩ := list_len4 hlen
    refine ⟨x0, x1, x2, x3, rfl, ?_⟩
    intro hco
    exact Option.noConfusion hco
  | none =>
    cases ageom with
    | none =>
      have hd : derive_bbox ⟨aid, aname, none, none⟩ = .ok ⟨aid, aname, none, none⟩ := rfl
      simp only [ensure_bbox, hd] at h <;> exact Except.noConfusion h
    | some g =>
      cases hd : derive_bbox ⟨aid, aname, none, some g⟩ with
      | error e =>
        simp only [ensure_bbox, hd] at h <;> exact Except.noConfusion h
      | ok b' =>
        obtain ⟨x0, x1, x2, x3, hbb, hx02, hx13⟩ := derive_bbox_geom hd
        simp only [ensure_bbox, hd, hbb, List.length_cons, List.length_nil] at h
        split_ifs at h with hlen
        · injection h with h'
          subst h'
          exact ⟨x0, x1, x2, x3, hbb, fun _ => ⟨hx02, hx13⟩⟩
        · exact absurd trivial hlen

/-- C6 amended witness: the derived bbox of a concrete polygon AOI is a
4-element, per-axis ordered list. -/
theorem bbox_resolved_amended_witness :
    ∃ x0 x1 x2 x3,
      (AOIIn.mk "v" "n" (some [14, 50, 15, 51]) none).bbox = some [x0, x1, x2, x3] ∧
      ((AOIIn.mk "v" "n" (some [14, 50, 15, 51]) none).bbox = none → x0 ≤ x2 ∧ x1 ≤ x3) :=
  bbox_resolved_amended ⟨"v", "n", some [14, 50, 15, 51], none⟩
    ⟨"v", "n", some [14, 50, 15, 51], none⟩ (by rfl)

/-- C7: a bbox derived from a Polygon-only AOI is exactly
`[min lons, min lats, max lons, max lats]` of the exterior ring
(`coordinates[0]`), and an AOI supplied with an explicit (length-4) bbox
keeps that bbox unchanged whatever its geometry. -/
theorem bbox_derivation_exact :
    (∀ (a : AOIIn) (g : Geometry) (coords : List (List Rat))
       (rest : List (List (List Rat))) (lons lats : List Rat)
       (mnLon mnLat mxLon mxLat : Rat),
       a.bbox = none → a.geometry = some g → g.type = "Polygon" →
       g.coordinates = coords :: rest →
       coords.mapM (fun c => c.get? 0) = some lons →
       coords.mapM (fun c => c.get? 1) = some lats →
       pyMinL lons = some mnLon → pyMinL lats = some mnLat →
       pyMaxL lons = some mxLon → pyMaxL lats = some mxLat →
       ensure_bbox a = .ok { a with bbox := some [mnLon, mnLat, mxLon, mxLat] })
  ∧ (∀ (a : AOIIn) (l : List Rat), a.bbox = some l → l.length = 4 →
       ensure_bbox a = .ok a) := by
  constructor
  · intro a g coords rest lons lats mnLon mnLat mxLon mxLat
      hb hg htype hcoords hlons hlats hm1 hm2 hm3 hm4
    obtain ⟨aid, aname, abbox, ageom⟩ := a
    simp only at hb hg
    subst hb
    subst hg
    obtain ⟨gtype, gcoords⟩ := g
    simp only at htype hcoords
    subst htype
    subst hcoords
    have hd : derive_bbox ⟨aid, aname, none, some ⟨"Polygon", coords :: rest⟩⟩ =
        .ok ⟨aid, aname, some [mnLon, mnLat, mxLon, mxLat],
             some ⟨"Polygon", coords :: rest⟩⟩ := by
      unfold derive_bbox
      dsimp only
      rw [if_pos rfl, hlons, hlats]
      dsimp only
      rw [hm1, hm2, hm3, hm4]
    simp [ensure_bbox, hd]
  · intro a l hb hlen
    obtain ⟨aid, aname, abbox, ageom⟩ := a
    simp only at hb
    subst hb
    have hd : derive_bbox ⟨aid, aname, some l, ageom⟩ = .ok ⟨aid, aname, some l, ageom⟩ := by
      cases ageom <;> rfl
    simp [ensure_bbox, hd, hlen]

/-- C7 witness: a concrete Polygon-only AOI derives
`[14, 50, 15, 51]`, and a concrete AOI with both bbox and geometry keeps
its bbox `[1, 2, 3, 4]` unchanged. -/
theorem bbox_derivation_exact_witness :
    ensure_bbox ⟨"v", "n", none,
        some ⟨"Polygon", [[[14, 50], [15, 50], [15, 51], [14, 51], [14, 50]]]⟩⟩ =
      .ok ⟨"v", "n", some [14, 50, 15, 51],
        some ⟨"Polygon", [[[14, 50], [15, 50], [15, 51], [14, 51], [14, 50]]]⟩⟩
  ∧ ensure_bbox ⟨"w", "m", some [1, 2, 3, 4], some ⟨"Point", [[[9, 9]]]⟩⟩ =
      .ok ⟨"w", "m", some [1, 2, 3, 4], some ⟨"Point", [[[9, 9]]]⟩⟩ :=
  ⟨bbox_derivation_exact.1 ⟨"v", "n", none,
      some ⟨"Polygon", [[[14, 50], [15, 50], [15, 51], [14, 51], [14, 50]]]⟩⟩
      ⟨"Polygon", [[[14, 50], [15, 50], [15, 51], [14, 51], [14, 50]]]⟩
      [[14, 50], [15, 50], [15, 51], [14, 51], [14, 50]] []
      [14, 15, 15, 14, 14] [50, 50, 51, 51, 50] 14 50 15 51
      rfl rfl rfl rfl (by decide) (by decide) (by decide) (by decide)
      (by decide) (by decide),
   bbox_derivation_exact.2 ⟨"w", "m", some [1, 2, 3, 4], some ⟨"Point", [[[9, 9]]]⟩⟩
      [1, 2, 3, 4] rfl rfl⟩

/-- C8: an empty (or absent) `features` array makes
`find_latest_s2_scene` return the distinguished no-scene value rather
than raise, and the single-AOI latest-scene endpoint maps it to the
success response `{aoi_id, scene: null}`, a constructor distinct from
every raised-`HTTPException` outcome. -/
theorem no_scene_is_success :
    find_latest_s2_scene (some []) = .ok none
  ∧ find_latest_s2_scene none = .ok none
  ∧ (∀ (aoi_id : String) (a : AOIRec),
       latest_scene_endpoint aoi_id (some a) (.ok (some [])) = .noScene aoi_id)
  ∧ (∀ (aoi_id : String) (s : Nat),
       SingleSceneResp.noScene aoi_id ≠ SingleSceneResp.httpExc s) := by
  refine ⟨rfl, rfl, fun _ _ => rfl, fun aoi_id s h => ?_⟩
  exact SingleSceneResp.noConfusion h

/-- C2: `get_access_token` returns a cached (non-empty) token unchanged
with zero token requests while more than 60 seconds remain before
expiry; otherwise it performs exactly one token request (whether it
succeeds or raises), and on success overwrites the cache with the new
token and `expires_at = now + expires_in` (3600 when absent).  Hence a
second call within `expires_in - 60` seconds of a successful refresh
performs zero additional requests and returns the same token, and a call
at or after that margin performs exactly one request. -/
theorem token_cache_policy (cache : TokenCache) (now : Rat)
    (upstream upstream2 : Except Nat TokenResponse) :
    (∀ t, cache.access_token = some t → t ≠ "" → cache.expires_at - now > 60 →
       get_access_token cache now upstream = ⟨.ok t, cache, 0⟩)
  ∧ (∀ s, upstream = .error s →
       (cache.access_token = none ∨ cache.access_token = some "" ∨
        ¬(cache.expires_at - now > 60)) →
       get_access_token cache now upstream = ⟨.error s, cache, 1⟩)
  ∧ (∀ payload, upstream = .ok payload →
       (cache.access_token = none ∨ cache.access_token = some "" ∨
        ¬(cache.expires_at - now > 60)) →
       get_access_token cache now upstream =
         ⟨.ok payload.access_token,
          ⟨some payload.access_token, now + payload.expires_in.getD 3600⟩, 1⟩)
  ∧ (∀ payload (t1 : Rat), upstream = .ok payload → payload.access_token ≠ "" →
       (cache.access_token = none ∨ cache.access_token = some "" ∨
        ¬(cache.expires_at - now > 60)) →
       ((t1 - now < payload.expires_in.getD 3600 - 60 →
           get_access_token (get_access_token cache now upstream).cache t1 upstream2 =
             ⟨.ok payload.access_token,
              ⟨some payload.access_token, now + payload.expires_in.getD 3600⟩, 0⟩)
        ∧ (t1 - now ≥ payload.expires_in.getD 3600 - 60 →
           (get_access_token (get_access_token cache now upstream).cache t1
               upstream2).requests = 1))) := by
  obtain ⟨ctok, cexp⟩ := cache
  refine ⟨?_, ?_, ?_, ?_⟩
  · intro t ht hne hmargin
    simp only at ht
    subst ht
    simp [get_access_token, hne, hmargin]
  · intro s hup hmiss
    subst hup
    rcases hmiss with h | h | h
    · simp only at h
      subst h
      simp [get_access_token]
    · simp only at h
      subst h
      simp [get_access_token]
    · simp only at h
      cases ctok with
      | none => simp [get_access_token]
      | some t =>
        by_cases hne : t = ""
        · subst hne
          simp [get_access_token]
        · simp [get_access_token, hne, h]
  · intro payload hup hmiss
    subst hup
    rcases hmiss with h | h | h
    · simp only at h
      subst h
      simp [get_access_token]
    · simp only at h
      subst h
      simp [get_access_token]
    · simp only at h
      cases ctok with
      | none => simp [get_access_token]
      | some t =>
        by_cases hne : t = ""
        · subst hne
          simp [get_access_token]
        · simp [get_access_token, hne, h]
  · intro payload t1 hup hpay hmiss
    have hfirst : get_access_token ⟨ctok, cexp⟩ now upstream =
        ⟨.ok payload.access_token,
         ⟨some payload.access_token, now + payload.expires_in.getD 3600⟩, 1⟩ := by
      subst hup
      rcases hmiss with h | h | h
      · simp only at h
        subst h
        simp [get_access_token]
      · simp only at h
        subst h
        simp [get_access_token]
      · simp only at h
        cases ctok with
        | none => simp [get_access_token]
        | some t =>
          by_cases hne : t = ""
          · subst hne
            simp [get_access_token]
          · simp [get_access_token, hne, h]
    rw [hfirst]
    constructor
    · intro hwin
      have hmargin : now + payload.expires_in.getD 3600 - t1 > 60 := by linarith
      simp [get_access_token, hpay, hmargin]
    · intro hlate
      have hmargin : ¬(now + payload.expires_in.getD 3600 - t1 > 60) := by linarith
      simp only [get_access_token, hmargin, and_false, if_false]
      cases upstream2 <;> rfl

/-- C2 witness: with an empty cache at `now = 1000` and a successful
refresh (`expires_in = 3600`), a second call at `t1 = 2000` (inside the
`3600 - 60` window) performs zero requests and returns the cached token;
a call at `t1 = 4540` (at the margin) performs one request. -/
theorem token_cache_policy_witness :
    (get_access_token (get_access_token ⟨none, 0⟩ 1000 (.ok ⟨"tok", some 3600⟩)).cache
        2000 (.ok ⟨"t2", none⟩) =
      ⟨.ok "tok", ⟨some "tok", 1000 + (Option.some (3600 : Rat)).getD 3600⟩, 0⟩)
  ∧ (get_access_token (get_access_token ⟨none, 0⟩ 1000 (.ok ⟨"tok", some 3600⟩)).cache
        4540 (.ok ⟨"t2", none⟩)).requests = 1 := by
  have h := (token_cache_policy ⟨none, 0⟩ 1000 (.ok ⟨"tok", some 3600⟩)
      (.ok ⟨"t2", none⟩)).2.2.2 ⟨"tok", some 3600⟩
  exact ⟨(h 2000 rfl (by decide) (.inl rfl)).1 (by norm_num),
         (h 4540 rfl (by decide) (.inl rfl)).2 (by norm_num)⟩

/-- A `/latest-scenes` task entry carries the id of the AOI it was
spawned for. -/
lemma scenes_one_aoiId (a : AOIRec) (r : FindOutcome) :
    (latest_scenes_one a r).aoiId = a.id := by
  cases r with
  | httpError s b => rfl
  | exc m => rfl
  | ok ff =>
    cases h : find_latest_s2_scene ff with
    | error m => simp [latest_scenes_one, h, ScenesEntry.aoiId]
    | ok o => cases o <;> simp [latest_scenes_one, h, ScenesEntry.aoiId]

/-- A `/latest-scenes` task entry is an error record exactly when the
task's search failed. -/
lemma scenes_one_isErr (a : AOIRec) (r : FindOutcome) :
    (latest_scenes_one a r).isErr = r.fails := by
  cases r with
  | httpError s b => rfl
  | exc m => rfl
  | ok ff =>
    cases h : find_latest_s2_scene ff with
    | error m => simp [latest_scenes_one, FindOutcome.fails, h, ScenesEntry.isErr]
    | ok o => cases o <;> simp [latest_scenes_one, FindOutcome.fails, h, ScenesEntry.isErr]

/-- A `/latest-fc-all` task entry carries the id of the AOI it was
spawned for. -/
lemma fc_one_aoiId (outputDir : String) (a : AOIRec) (find : FindOutcome)
    (png : PngOutcome) : (latest_fc_all_one outputDir a find png).aoiId = a.id := by
  cases find with
  | httpError s b => rfl
  | exc m => rfl
  | ok ff =>
    cases h : find_latest_s2_scene ff with
    | error m => simp [latest_fc_all_one, h, FcAllEntry.aoiId]
    | ok o =>
      cases o with
      | none => simp [latest_fc_all_one, h, FcAllEntry.aoiId]
      | some f =>
        cases hdt : dtStrOpt f with
        | none => simp [latest_fc_all_one, h, hdt, FcAllEntry.aoiId]
        | some s =>
          cases hp : parse_datetime_utc s with
          | none => simp [latest_fc_all_one, h, hdt, hp, FcAllEntry.aoiId]
          | some t =>
            cases png <;> simp [latest_fc_all_one, h, hdt, hp, FcAllEntry.aoiId]

/-- A `/latest-fc-all` task entry is an error record exactly when one of
the task's stages failed. -/
lemma fc_one_isErr (outputDir : String) (a : AOIRec) (find : FindOutcome)
    (png : PngOutcome) :
    (latest_fc_all_one outputDir a find png).isErr = fcFails find png := by
  cases find with
  | httpError s b => rfl
  | exc m => rfl
  | ok ff =>
    cases h : find_latest_s2_scene ff with
    | error m => simp [latest_fc_all_one, fcFails, h, FcAllEntry.isErr]
    | ok o =>
      cases o with
      | none => simp [latest_fc_all_one, fcFails, h, FcAllEntry.isErr]
      | some f =>
        cases hdt : dtStrOpt f with
        | none => simp [latest_fc_all_one, fcFails, h, hdt, FcAllEntry.isErr]
        | some s =>
          cases hp : parse_datetime_utc s with
          | none => simp [latest_fc_all_one, fcFails, h, hdt, hp, FcAllEntry.isErr]
          | some t =>
            cases png <;> simp [latest_fc_all_one, fcFails, h, hdt, hp, FcAllEntry.isErr]

/-- When `dtStrOpt` reports no usable datetime (absent or empty), the
defaulted string `key_fn` parses is the epoch literal. -/
lemma dtRaw_of_missing {f : Feature} (h : dtStrOpt f = none) :
    dtRaw f = "1970-01-01T00:00:00Z" := by
  unfold dtStrOpt at h
  unfold dtRaw strOr
  cases hd : f.props.datetime with
  | none => rfl
  | some s =>
    rw [hd] at h
    dsimp only at h ⊢
    split_ifs at h ⊢ with he
    rfl

/-- A singleton features list selects its only feature (when its key
parses). -/
lemma find_single {f : Feature} (h : (key_fn f).isSome = true) :
    find_latest_s2_scene (some [f]) = .ok (some f) := by
  have hp : keysParse [f] = true := by simp [keysParse, h]
  simp [find_latest_s2_scene, hp, pyMax1]

/-- C1: the batch endpoints `/latest-scenes` and `/latest-fc-all` return
exactly one result entry per input AOI, at the position of that AOI in
the input list; each entry carries its AOI's id, and it is an error
record exactly when that AOI's own task failed — so one item's failure
never removes or perturbs the other items' entries and never fails the
batch (the batch bodies are total functions of the per-item outcomes). -/
theorem batch_isolation (aois : List AOIRec) (worldS : Nat → FindOutcome)
    (worldF : Nat → FindOutcome) (worldP : Nat → PngOutcome) (outputDir : String) :
    ((latest_scenes_batch aois worldS).2.length = aois.length
     ∧ (latest_scenes_batch aois worldS).1 = aois.length
     ∧ (∀ (j : Nat) (a : AOIRec), aois[j]? = some a →
          (latest_scenes_batch aois worldS).2[j]? =
            some (latest_scenes_one a (worldS j))
          ∧ (latest_scenes_one a (worldS j)).aoiId = a.id
          ∧ (latest_scenes_one a (worldS j)).isErr = (worldS j).fails))
  ∧ ((latest_fc_all_batch outputDir aois worldF worldP).2.length = aois.length
     ∧ (latest_fc_all_batch outputDir aois worldF worldP).1 = aois.length
     ∧ (∀ (j : Nat) (a : AOIRec), aois[j]? = some a →
          (latest_fc_all_batch outputDir aois worldF worldP).2[j]? =
            some (latest_fc_all_one outputDir a (worldF j) (worldP j))
          ∧ (latest_fc_all_one outputDir a (worldF j) (worldP j)).aoiId = a.id
          ∧ (latest_fc_all_one outputDir a (worldF j) (worldP j)).isErr =
              fcFails (worldF j) (worldP j))) := by
  refine ⟨⟨?_, ?_, ?_⟩, ⟨?_, ?_, ?_⟩⟩
  · exact gatherMap_length _ 0 aois
  · exact gatherMap_length _ 0 aois
  · intro j a hj
    refine ⟨?_, scenes_one_aoiId a (worldS j), scenes_one_isErr a (worldS j)⟩
    have := gatherMap_get? (fun i a => latest_scenes_one a (worldS i)) 0 j aois
    simpa [latest_scenes_batch, hj] using this
  · exact gatherMap_length _ 0 aois
  · exact gatherMap_length _ 0 aois
  · intro j a hj
    refine ⟨?_, fc_one_aoiId outputDir a (worldF j) (worldP j),
            fc_one_isErr outputDir a (worldF j) (worldP j)⟩
    have := gatherMap_get?
      (fun i a => latest_fc_all_one outputDir a (worldF i) (worldP i)) 0 j aois
    simpa [latest_fc_all_batch, hj] using this

/-- C1 witness: 5 AOIs where task 3 (index 2) raises an upstream 500 —
entry 3 of the batch is that AOI's error record, in its position. -/
theorem batch_isolation_witness :
    (latest_scenes_batch
        [⟨"a1", "n1", [0, 0, 1, 1]⟩, ⟨"a2", "n2", [0, 0, 1, 1]⟩,
         ⟨"a3", "n3", [0, 0, 1, 1]⟩, ⟨"a4", "n4", [0, 0, 1, 1]⟩,
         ⟨"a5", "n5", [0, 0, 1, 1]⟩]
        (fun i => if i = 2 then .httpError 500 "boom" else .ok (some []))).2[2]? =
      some (latest_scenes_one ⟨"a3", "n3", [0, 0, 1, 1]⟩ (.httpError 500 "boom"))
  ∧ (latest_scenes_one ⟨"a3", "n3", [0, 0, 1, 1]⟩
       (FindOutcome.httpError 500 "boom")).isErr = true := by
  have h := (batch_isolation
      [⟨"a1", "n1", [0, 0, 1, 1]⟩, ⟨"a2", "n2", [0, 0, 1, 1]⟩,
       ⟨"a3", "n3", [0, 0, 1, 1]⟩, ⟨"a4", "n4", [0, 0, 1, 1]⟩,
       ⟨"a5", "n5", [0, 0, 1, 1]⟩]
      (fun i => if i = 2 then .httpError 500 "boom" else .ok (some []))
      (fun _ => .ok none) (fun _ => .ok []) "output").1.2.2 2
      ⟨"a3", "n3", [0, 0, 1, 1]⟩ rfl
  exact ⟨h.1, h.2.2⟩

/-- C3 counterexample: with two features whose keys tie (the first lacks
a datetime and so defaults to the epoch, the second carries the epoch
datetime explicitly), the selection returns the FIRST-listed feature —
the one lacking a datetime — contradicting both the later-listed
tie-break and "a feature lacking a datetime is never selected over a
feature that has one". -/
theorem scene_selection_counterexample :
    find_latest_s2_scene
        (some [⟨some "no-dt", some ⟨none, none⟩⟩,
               ⟨some "epoch-dt", some ⟨some "1970-01-01T00:00:00Z", none⟩⟩]) =
      .ok (some ⟨some "no-dt", some ⟨none, none⟩⟩)
  ∧ (Feature.mk (some "no-dt") (some ⟨none, none⟩)).props.datetime = none
  ∧ (Feature.mk (some "epoch-dt")
       (some ⟨some "1970-01-01T00:00:00Z", none⟩)).props.datetime =
      some "1970-01-01T00:00:00Z"
  ∧ Feature.mk (some "no-dt") (some ⟨none, none⟩) ≠
      Feature.mk (some "epoch-dt") (some ⟨some "1970-01-01T00:00:00Z", none⟩) := by
  refine ⟨rfl, rfl, rfl, by decide⟩

/-- C3 amended: on a non-empty features list (all of whose datetime
strings parse; a missing or empty datetime defaults to the epoch string
`1970-01-01T00:00:00Z`), the selection returns a feature whose key is
maximal, and it is the FIRST-listed such feature: every feature listed
before it has a strictly smaller key.  A feature lacking a datetime is
therefore never selected over one whose datetime parses strictly later
than the epoch. -/
theorem scene_selection_amended (features : List Feature) (hne : features ≠ [])
    (hp : keysParse features = true) :
    ∃ f l1 l2,
      find_latest_s2_scene (some features) = .ok (some f)
      ∧ features = l1 ++ f :: l2
      ∧ (∀ g ∈ features, keyD g ≤ keyD f)
      ∧ (∀ g ∈ l1, keyD g < keyD f) := by
  cases features with
  | nil => exact absurd rfl hne
  | cons x xs =>
    obtain ⟨l1, l2, heq, hmax, hstrict⟩ := pyMax1_first_max keyD x xs
    refine ⟨pyMax1 keyD x xs, l1, l2, ?_, heq, hmax, hstrict⟩
    simp [find_latest_s2_scene, hp]

/-- C3 amended witness: the two-feature tie at the epoch key resolves to
the first-listed feature with all listed-before features (none) smaller. -/
theorem scene_selection_amended_witness :
    ∃ f l1 l2,
      find_latest_s2_scene
          (some [⟨some "no-dt", some ⟨none, none⟩⟩,
                 ⟨some "epoch-dt", some ⟨some "1970-01-01T00:00:00Z", none⟩⟩]) =
        .ok (some f)
      ∧ [Feature.mk (some "no-dt") (some ⟨none, none⟩),
         Feature.mk (some "epoch-dt") (some ⟨some "1970-01-01T00:00:00Z", none⟩)] =
          l1 ++ f :: l2
      ∧ (∀ g ∈ [Feature.mk (some "no-dt") (some ⟨none, none⟩),
                Feature.mk (some "epoch-dt")
                  (some ⟨some "1970-01-01T00:00:00Z", none⟩)],
           keyD g ≤ keyD f)
      ∧ (∀ g ∈ l1, keyD g < keyD f) :=
  scene_selection_amended
    [⟨some "no-dt", some ⟨none, none⟩⟩,
     ⟨some "epoch-dt", some ⟨some "1970-01-01T00:00:00Z", none⟩⟩]
    (by decide) (by decide)

/-- C9: for a known AOI and a parseable `datetime_utc`, `/aois/{id}/fc`
writes the rendered PNG bytes to
`{output_dir}/{aoi_id}/{date}_false_color.png` — `date` being the UTC
calendar date of the parsed instant — overwriting whatever the
filesystem previously held at that path, and answers with that file path
and a `url` equal to `/` followed by it. -/
theorem fc_save_path (outputDir aoi_id : String) (a : AOIRec) (s : String)
    (t : Int) (png : List Nat) (fs : FS) (hp : parse_datetime_utc s = some t) :
    fc_save outputDir aoi_id (some a) s (.ok png) fs =
      .ok (⟨aoi_id, to_z t,
            outputDir ++ "/" ++ aoi_id ++ "/" ++ dateIso (Int.fdiv t 86400)
              ++ "_false_color.png",
            "/" ++ (outputDir ++ "/" ++ aoi_id ++ "/" ++ dateIso (Int.fdiv t 86400)
              ++ "_false_color.png")⟩,
           (save_png outputDir aoi_id (dateIso (Int.fdiv t 86400)) png fs).1)
  ∧ (save_png outputDir aoi_id (dateIso (Int.fdiv t 86400)) png fs).1
      (outputDir ++ "/" ++ aoi_id ++ "/" ++ dateIso (Int.fdiv t 86400)
        ++ "_false_color.png") = some png := by
  constructor
  · simp [fc_save, hp, save_png]
  · simp [save_png]

/-- C9 witness: `datetime_utc = 2026-01-23T10:15:00Z` for AOI `vol1`
with output dir `output` writes `output/vol1/2026-01-23_false_color.png`
(the bytes land there, over a filesystem that held other bytes at that
path) and returns the matching `/`-prefixed url. -/
theorem fc_save_path_witness :
    fc_save "output" "vol1" (some ⟨"vol1", "Vulcano", [14, 50, 15, 51]⟩)
        "2026-01-23T10:15:00Z" (.ok [1, 2, 3])
        (fun _ => some [9, 9]) =
      .ok (⟨"vol1", "2026-01-23T10:15:00Z", "output/vol1/2026-01-23_false_color.png",
            "/output/vol1/2026-01-23_false_color.png"⟩,
           (save_png "output" "vol1" (dateIso (Int.fdiv 1769163300 86400)) [1, 2, 3]
             (fun _ => some [9, 9])).1)
  ∧ (save_png "output" "vol1" (dateIso (Int.fdiv 1769163300 86400)) [1, 2, 3]
       (fun _ => some [9, 9])).1 "output/vol1/2026-01-23_false_color.png" =
      some [1, 2, 3] := by
  have h := fc_save_path "output" "vol1" ⟨"vol1", "Vulcano", [14, 50, 15, 51]⟩
      "2026-01-23T10:15:00Z" 1769163300 [1, 2, 3] (fun _ => some [9, 9]) (by decide)
  exact ⟨h.1, h.2⟩

/-- C10: a selected feature with a missing (or empty) datetime makes the
single-AOI `/aois/{id}/latest-fc` answer the all-null success shape —
identical to its no-scene response — while `/latest-fc-all` turns the
same condition into a per-item error record with message
`scene missing datetime`. -/
theorem missing_datetime_divergence (outputDir : String) (a : AOIRec)
    (f : Feature) (png : PngOutcome) (hdt : dtStrOpt f = none) :
    latest_fc_endpoint outputDir a.id (some a) (.ok (some [f])) png =
      .ok a.id none none none
  ∧ latest_fc_endpoint outputDir a.id (some a) (.ok none) png =
      .ok a.id none none none
  ∧ latest_fc_all_one outputDir a (.ok (some [f])) png =
      .err a.id a.name (.msg "scene missing datetime") := by
  have hkey : (key_fn f).isSome = true := by
    unfold key_fn
    rw [dtRaw_of_missing hdt]
    rfl
  have hfind := find_single hkey
  refine ⟨?_, rfl, ?_⟩
  · simp [latest_fc_endpoint, hfind, hdt]
  · simp [latest_fc_all_one, hfind, hdt]

/-- C10 witness: a concrete feature with `properties.datetime` absent
yields the all-null single-AOI success and the batch error record. -/
theorem missing_datetime_divergence_witness :
    latest_fc_endpoint "output" "v1" (some ⟨"v1", "Volcano", [0, 0, 1, 1]⟩)
        (.ok (some [⟨some "s1", some ⟨none, none⟩⟩])) (.ok [0]) =
      .ok "v1" none none none
  ∧ latest_fc_endpoint "output" "v1" (some ⟨"v1", "Volcano", [0, 0, 1, 1]⟩)
        (.ok none) (.ok [0]) =
      .ok "v1" none none none
  ∧ latest_fc_all_one "output" ⟨"v1", "Volcano", [0, 0, 1, 1]⟩
        (.ok (some [⟨some "s1", some ⟨none, none⟩⟩])) (.ok [0]) =
      .err "v1" "Volcano" (.msg "scene missing datetime") :=
  missing_datetime_divergence "output" ⟨"v1", "Volcano", [0, 0, 1, 1]⟩
    ⟨some "s1", some ⟨none, none⟩⟩ (.ok [0]) rfl

/-- C8 witness: concrete empty search answers `{aoi_id, scene: null}`,
which differs from a raised 502. -/
theorem no_scene_is_success_witness :
    latest_scene_endpoint "v" (some ⟨"v", "n", [0, 0, 1, 1]⟩) (.ok (some [])) =
      .noScene "v"
  ∧ SingleSceneResp.noScene "v" ≠ SingleSceneResp.httpExc 502 :=
  ⟨no_scene_is_success.2.2.1 "v" ⟨"v", "n", [0, 0, 1, 1]⟩,
   no_scene_is_success.2.2.2 "v" 502⟩
